import Mathlib

/-!
Verification of the Superior Reading Chrome extension OAuth/PKCE core:
a shallow embedding of the token lifecycle code in
src/Frontend/chrome_extension/spotify_auth.js, its sibling variant
src/unnamed/part_000, the background relay src/unnamed/part_001 and the
popup playback logic src/Frontend/chrome_extension/popup.js, together with
theorems settling the spec claims about them.
-/

set_option maxRecDepth 4096

namespace SuperiorReading

/-- JavaScript number as this code produces it: an integer count of
milliseconds or seconds, or NaN (the result of arithmetic on undefined). -/
inductive JNum where
  | int (n : Int)
  | nan
deriving DecidableEq

/-- Values held in chrome.storage.local as the popup and the auth module
read and write them. -/
inductive JSVal where
  | str (s : String)
  | num (j : JNum)
  | boolV (b : Bool)
deriving DecidableEq

/-- chrome.storage.local: a partial map from keys to values; none models an
absent key (undefined on read). -/
abbrev Store := String → Option JSVal

/-- Storage key ACCESS_TOKEN of STORAGE_KEYS in spotify_auth.js. -/
def ACCESS_TOKEN : String := "spotify_access_token"

/-- Storage key REFRESH_TOKEN of STORAGE_KEYS in spotify_auth.js. -/
def REFRESH_TOKEN : String := "spotify_refresh_token"

/-- Storage key EXPIRES_AT of STORAGE_KEYS in spotify_auth.js. -/
def EXPIRES_AT : String := "spotify_expires_at"

/-- Storage key CODE_VERIFIER of STORAGE_KEYS in spotify_auth.js. -/
def CODE_VERIFIER : String := "spotify_code_verifier"

/-- JavaScript truthiness of a possibly absent stored value: undefined, the
empty string, 0, NaN and false are falsy. -/
def jsTruthy : Option JSVal → Bool
  | none => false
  | some (.str s) => !(s == "")
  | some (.num (.int n)) => !(n == 0)
  | some (.num .nan) => false
  | some (.boolV b) => b

/-- JavaScript truthiness of a possibly absent string field. -/
def jsTruthyStr : Option String → Bool
  | none => false
  | some s => !(s == "")

/-- Read a stored string value; a non string value reads as none. -/
def getStr (st : Store) (k : String) : Option String :=
  match st k with
  | some (.str s) => some s
  | _ => none

/-! ### PKCE code verifier generation (claim C1)

Two generateCodeVerifier implementations exist in the repository: the one in
src/Frontend/chrome_extension/spotify_auth.js renders 96 random bytes as hex
pairs, while src/unnamed/part_000 base64url encodes 32 random bytes. Both are
embedded below as pure functions of the random byte list. -/

/-- Lowercase hexadecimal digit characters, as Number.prototype.toString(16)
emits them. -/
def hexDigitChars : List Char := "0123456789abcdef".data

/-- One hexadecimal digit character. -/
def hexDigitChar (n : Nat) : Char := hexDigitChars.getD (n % 16) '0'

/-- JavaScript n.toString(16): hexadecimal digits without leading zeros, the
single digit 0 for zero. -/
def natToHex (n : Nat) : List Char :=
  if n < 16 then [hexDigitChar n]
  else natToHex (n / 16) ++ [hexDigitChar (n % 16)]
termination_by n
decreasing_by exact Nat.div_lt_self (by omega) (by omega)

/-- One byte as the Frontend generateCodeVerifier renders it: a zero digit is
prepended to byte.toString(16) and the last two characters are kept, the
slice with argument minus two. -/
def hexByte (b : Nat) : List Char :=
  let s := '0' :: natToHex b
  s.drop (s.length - 2)

/-- generateCodeVerifier of src/Frontend/chrome_extension/spotify_auth.js:
the 96 random bytes of the Uint8Array, each rendered as a two digit lowercase
hex pair, joined. -/
def generateCodeVerifierHex (bytes : List Nat) : String :=
  ⟨(bytes.map hexByte).flatten⟩

/-- The base64 alphabet in order, as btoa emits it. -/
def b64Alphabet : List Char :=
  "ABCDEFGHIJKLMNOPQRSTUVWXYZabcdefghijklmnopqrstuvwxyz0123456789+/".data

/-- One base64 digit character. -/
def b64Digit (n : Nat) : Char := b64Alphabet.getD (n % 64) 'A'

/-- btoa on a byte string: four base64 characters per three bytes, with
equals sign padding for a trailing group of one or two bytes. -/
def b64Encode : List Nat → List Char
  | [] => []
  | [a] => [b64Digit (a / 4), b64Digit (a % 4 * 16), '=', '=']
  | [a, b] => [b64Digit (a / 4), b64Digit (a % 4 * 16 + b / 16), b64Digit (b % 16 * 4), '=']
  | a :: b :: c :: rest =>
      b64Digit (a / 4) :: b64Digit (a % 4 * 16 + b / 16) ::
        b64Digit (b % 16 * 4 + c / 64) :: b64Digit (c % 64) :: b64Encode rest

/-- The two base64url regex replacements of RFC 4648 section 5: plus becomes
minus, slash becomes underscore. -/
def toB64Url (c : Char) : Char :=
  if c = '+' then '-' else if c = '/' then '_' else c

/-- The trailing padding strip: the regex replacing a run of equals signs at
the end with the empty string. -/
def stripPad (l : List Char) : List Char :=
  (l.reverse.dropWhile (fun c => c = '=')).reverse

/-- generateCodeVerifier of src/unnamed/part_000: the 32 random bytes of the
Uint8Array, passed through btoa, the base64url replacements and the padding
strip. -/
def generateCodeVerifierB64 (bytes : List Nat) : String :=
  ⟨stripPad ((b64Encode bytes).map toB64Url)⟩

/-- Unreserved URL safe characters: letters, digits, minus, dot, underscore
and tilde. -/
def isUnreserved (c : Char) : Bool :=
  c.isAlpha || c.isDigit || c = '-' || c = '.' || c = '_' || c = '~'

theorem natToHex_ne_nil (n : Nat) : natToHex n ≠ [] := by
  unfold natToHex
  split <;> simp

theorem hexByte_length (b : Nat) : (hexByte b).length = 2 := by
  unfold hexByte
  have h2 : 1 ≤ (natToHex b).length := by
    cases hn : natToHex b with
    | nil => exact absurd hn (natToHex_ne_nil b)
    | cons x xs => simp
  simp [List.length_drop]
  omega

theorem generateCodeVerifierHex_length (bytes : List Nat) :
    (generateCodeVerifierHex bytes).length = 2 * bytes.length := by
  show ((bytes.map hexByte).flatten).length = 2 * bytes.length
  induction bytes with
  | nil => simp
  | cons b t ih =>
      simp only [List.map_cons, List.flatten_cons, List.length_append, ih, hexByte_length,
        List.length_cons]
      omega

theorem b64Alphabet_length : b64Alphabet.length = 64 := by decide

theorem b64Digit_mem (n : Nat) : b64Digit n ∈ b64Alphabet := by
  have h : n % 64 < b64Alphabet.length := by
    rw [b64Alphabet_length]
    omega
  unfold b64Digit
  rw [List.getD_eq_getElem?_getD, List.getElem?_eq_getElem h, Option.getD_some]
  exact List.getElem_mem h

theorem b64Alphabet_ok :
    ∀ c ∈ b64Alphabet, isUnreserved (toB64Url c) = true ∧ toB64Url c ≠ '=' := by
  decide

theorem b64Digit_ok (n : Nat) :
    isUnreserved (toB64Url (b64Digit n)) = true ∧ toB64Url (b64Digit n) ≠ '=' :=
  b64Alphabet_ok _ (b64Digit_mem n)

/-- Structure of a btoa output: base64 digits followed by the padding run
whose length the input length determines. -/
theorem b64Encode_split (l : List Nat) :
    ∃ front, b64Encode l = front ++ List.replicate ((3 - l.length % 3) % 3) '=' ∧
      (∀ c ∈ front, ∃ n, c = b64Digit n) ∧
      front.length + (3 - l.length % 3) % 3 = (l.length + 2) / 3 * 4 := by
  induction l using b64Encode.induct with
  | case1 =>
      exact ⟨[], by simp [b64Encode], by simp, by simp⟩
  | case2 a =>
      refine ⟨[b64Digit (a / 4), b64Digit (a % 4 * 16)], ?_, ?_, by simp⟩
      · simp [b64Encode, List.replicate]
      · intro c hc
        simp at hc
        rcases hc with h | h <;> exact ⟨_, h⟩
  | case3 a b =>
      refine ⟨[b64Digit (a / 4), b64Digit (a % 4 * 16 + b / 16), b64Digit (b % 16 * 4)],
        ?_, ?_, by simp⟩
      · simp [b64Encode]
      · intro c hc
        simp at hc
        rcases hc with h | h | h <;> exact ⟨_, h⟩
  | case4 a b c rest ih =>
      obtain ⟨front, he, hc, hl⟩ := ih
      refine ⟨b64Digit (a / 4) :: b64Digit (a % 4 * 16 + b / 16) ::
        b64Digit (b % 16 * 4 + c / 64) :: b64Digit (c % 64) :: front, ?_, ?_, ?_⟩
      · simp only [b64Encode, he, List.length_cons]
        have hm : (rest.length + 1 + 1 + 1) % 3 = rest.length % 3 := by omega
        rw [hm]
        simp
      · intro x hx
        simp at hx
        rcases hx with h | h | h | h | h
        · exact ⟨_, h⟩
        · exact ⟨_, h⟩
        · exact ⟨_, h⟩
        · exact ⟨_, h⟩
        · exact hc x h
      · simp only [List.length_cons]
        omega

theorem dropWhile_replicate_append (k : Nat) (l : List Char) :
    (List.replicate k '=' ++ l).dropWhile (fun c => c = '=') =
      l.dropWhile (fun c => c = '=') := by
  induction k with
  | zero => simp
  | succ n ih => simp [List.replicate_succ, List.dropWhile_cons, ih]

theorem stripPad_append_pad (front : List Char) (k : Nat)
    (h : ∀ c ∈ front, c ≠ '=') :
    stripPad (front ++ List.replicate k '=') = front := by
  unfold stripPad
  rw [List.reverse_append, List.reverse_replicate, dropWhile_replicate_append]
  cases hf : front.reverse with
  | nil =>
      have : front = [] := by simpa using congrArg List.reverse hf
      simp [this]
  | cons x xs =>
      have hx : x ∈ front := by
        have : x ∈ front.reverse := by rw [hf]; simp
        simpa using this
      have hne : ¬(x = '=') := h x hx
      rw [List.dropWhile_cons, if_neg (by simpa using hne), ← hf, List.reverse_reverse]

/-- General shape of the part_000 verifier: its length is determined by the
byte count and all its characters are unreserved. -/
theorem generateCodeVerifierB64_spec (bytes : List Nat) :
    (generateCodeVerifierB64 bytes).length =
      (bytes.length + 2) / 3 * 4 - (3 - bytes.length % 3) % 3 ∧
    ∀ c ∈ (generateCodeVerifierB64 bytes).data, isUnreserved c = true := by
  obtain ⟨front, he, hc, hl⟩ := b64Encode_split bytes
  have hmap : (b64Encode bytes).map toB64Url =
      front.map toB64Url ++ List.replicate ((3 - bytes.length % 3) % 3) '=' := by
    rw [he, List.map_append, List.map_replicate]
    rfl
  have hfr : ∀ c ∈ front.map toB64Url, c ≠ '=' := by
    intro c hcm
    obtain ⟨x, hx, rfl⟩ := List.mem_map.mp hcm
    obtain ⟨n, rfl⟩ := hc x hx
    exact (b64Digit_ok n).2
  have hstrip : stripPad ((b64Encode bytes).map toB64Url) = front.map toB64Url := by
    rw [hmap]
    exact stripPad_append_pad _ _ hfr
  constructor
  · show (stripPad ((b64Encode bytes).map toB64Url)).length = _
    rw [hstrip, List.length_map]
    omega
  · intro c hcm
    have : c ∈ stripPad ((b64Encode bytes).map toB64Url) := hcm
    rw [hstrip] at this
    obtain ⟨x, hx, rfl⟩ := List.mem_map.mp this
    obtain ⟨n, rfl⟩ := hc x hx
    exact (b64Digit_ok n).1

/-! ### Token store operations (claims C2, C3, C5, C7, C9, C10)

chrome.storage.local.set is modelled by an explicit write plus a
WriteOutcome describing what the callback reported: success with the write
applied, a runtime error, or success reported while the write was silently
lost. Keys whose value is undefined (none) are skipped by set, as chrome
drops undefined properties. -/

/-- Outcome of one chrome.storage.local.set call. -/
inductive WriteOutcome where
  | ok
  | errored (msg : String)
  | silent
deriving DecidableEq

/-- Write one key; an undefined value is skipped. -/
def setKey (st : Store) (k : String) (v : Option JSVal) : Store :=
  match v with
  | none => st
  | some v => fun q => if q = k then some v else st q

/-- Apply one set object, left to right. -/
def setKVs (st : Store) (kvs : List (String × Option JSVal)) : Store :=
  kvs.foldl (fun s kv => setKey s kv.1 kv.2) st

/-- Body of a token endpoint JSON response; none models an absent field. -/
structure TokenResponse where
  access_token : Option String
  refresh_token : Option String
  expires_in : Option Int
deriving DecidableEq

/-- The expiry computation of storeTokens, Date.now() plus expiresIn times
1000: NaN when expires_in was undefined, since undefined times 1000 is NaN. -/
def expiresAtCalc (now : Int) (expiresIn : Option Int) : JNum :=
  match expiresIn with
  | some n => .int (now + n * 1000)
  | none => .nan

/-- The set object storeTokens writes: the two tokens and the computed
expiry. -/
def tokenWrite (st : Store) (now : Int) (access refresh : Option String)
    (expiresIn : Option Int) : Store :=
  setKVs st
    [(ACCESS_TOKEN, access.map .str),
     (REFRESH_TOKEN, refresh.map .str),
     (EXPIRES_AT, some (.num (expiresAtCalc now expiresIn)))]

/-- storeTokens of src/Frontend/chrome_extension/spotify_auth.js: one set of
the three token keys, resolving as soon as the callback reports no runtime
error. Nothing confirms the write actually landed. -/
def storeTokens (st : Store) (now : Int) (access refresh : Option String)
    (expiresIn : Option Int) (o : WriteOutcome) : Except String Store :=
  match o with
  | .errored msg => .error msg
  | .ok => .ok (tokenWrite st now access refresh expiresIn)
  | .silent => .ok st

/-- The verification read of storeTokens in src/unnamed/part_000: reject when
either token is missing from storage after the set completed. -/
def verifyStored (st : Store) : Except String Store :=
  if jsTruthy (st ACCESS_TOKEN) && jsTruthy (st REFRESH_TOKEN) then .ok st
  else .error "Tokens were not stored correctly"

/-- storeTokens of src/unnamed/part_000: the same set followed by a
verification read of both tokens; the verification read itself is assumed to
report no runtime error, which is the only case the claims need. -/
def storeTokensP0 (st : Store) (now : Int) (access refresh : Option String)
    (expiresIn : Option Int) (o : WriteOutcome) : Except String Store :=
  match o with
  | .errored msg => .error msg
  | .ok => verifyStored (tokenWrite st now access refresh expiresIn)
  | .silent => verifyStored st

/-- clearTokens (identical in both spotify_auth.js versions):
chrome.storage.local.remove of exactly the four token keys. -/
def clearTokens (st : Store) : Store :=
  fun k =>
    if k = ACCESS_TOKEN ∨ k = REFRESH_TOKEN ∨ k = EXPIRES_AT ∨ k = CODE_VERIFIER
    then none else st k

/-- isAuthenticated (identical in both versions): the double negation of
both token reads, so true exactly when both tokens are present and truthy. -/
def isAuthenticated (st : Store) : Bool :=
  jsTruthy (st ACCESS_TOKEN) && jsTruthy (st REFRESH_TOKEN)

/-- JavaScript value or default: tokenData.expires_in or else 3600, where
both undefined and 0 are falsy and give the default. -/
def jsOrInt (v : Option Int) (d : Int) : Int :=
  match v with
  | none => d
  | some n => if n = 0 then d else n

/-- refreshAccessToken (identical in both spotify_auth.js versions): read the
stored refresh token, POST the refresh grant, and on an ok response call
storeTokens with the new access token, the refresh token read from storage
before the call (the response refresh_token field is never consulted) and the
default completed expiry; resolves with the access_token field of the
response. The Nat counts POSTs to the token endpoint. -/
def refreshAccessToken (st : Store) (now : Int) (httpOk : Bool)
    (resp : TokenResponse) (o : WriteOutcome) :
    Except String (Store × Option String) × Nat :=
  match getStr st REFRESH_TOKEN with
  | none => (.error "No refresh token available", 0)
  | some r =>
    if r = "" then (.error "No refresh token available", 0)
    else if !httpOk then (.error "Token refresh failed", 1)
    else
      match storeTokens st now resp.access_token (some r)
          (some (jsOrInt resp.expires_in 3600)) o with
      | .error m => (.error m, 1)
      | .ok st1 => (.ok (st1, resp.access_token), 1)

/-- The cached token guard of getAccessToken, Date.now() less than expiresAt
minus 5 times 60 times 1000: any comparison against NaN is false, and a non
number never reaches the comparison in this code. -/
def jsLtExpiry (now : Int) (v : Option JSVal) : Bool :=
  match v with
  | some (.num (.int e)) => decide (now < e - 5 * 60 * 1000)
  | _ => false

/-- getAccessToken (identical in both versions): serve the cached token when
the token and the expiry are both truthy and now is more than the five minute
buffer before the expiry; otherwise run one refresh exchange, mapping its
failure to the re-authentication error. The Nat counts token endpoint
POSTs. -/
def getAccessToken (st : Store) (now : Int) (httpOk : Bool)
    (resp : TokenResponse) (o : WriteOutcome) :
    Except String (Option String) × Store × Nat :=
  if jsTruthy (st ACCESS_TOKEN) && jsTruthy (st EXPIRES_AT) &&
      jsLtExpiry now (st EXPIRES_AT) then
    (.ok (getStr st ACCESS_TOKEN), st, 0)
  else
    match refreshAccessToken st now httpOk resp o with
    | (.ok (st1, tok), n) => (.ok tok, st1, n)
    | (.error _, n) =>
        (.error "Token expired and refresh failed. Please re-authenticate.", st, n)

/-- The token handling tail of authenticate in
src/Frontend/chrome_extension/spotify_auth.js, after the authorization code
exchange response arrived: store whatever token fields the response held and
resolve. There is no completeness check on the response. -/
def authExchangePhase (st : Store) (now : Int) (resp : TokenResponse)
    (o : WriteOutcome) : Except String Store :=
  storeTokens st now resp.access_token resp.refresh_token resp.expires_in o

/-- The token handling tail of authenticate in src/unnamed/part_000: reject a
response missing either token, store with the verification read, then
re-check isAuthenticated before resolving. -/
def authExchangePhaseP0 (st : Store) (now : Int) (resp : TokenResponse)
    (o : WriteOutcome) : Except String Store :=
  if !(jsTruthyStr resp.access_token) || !(jsTruthyStr resp.refresh_token) then
    .error "Token response missing required fields"
  else
    match storeTokensP0 st now resp.access_token resp.refresh_token resp.expires_in o with
    | .error m => .error m
    | .ok st1 =>
        if !(isAuthenticated st1) then
          .error "Tokens were stored but authentication verification failed"
        else .ok st1

/-- The storage left after an Except valued step: the new store on success,
the untouched one on error. -/
def afterAuth (st : Store) (r : Except String Store) : Store :=
  match r with
  | .ok s => s
  | .error _ => st

theorem tokenWrite_access (st : Store) (now : Int) (a r : Option String)
    (ei : Option Int) :
    tokenWrite st now a r ei ACCESS_TOKEN =
      match a with
      | some x => some (.str x)
      | none => st ACCESS_TOKEN := by
  cases a <;> cases r <;>
    simp [tokenWrite, setKVs, setKey, ACCESS_TOKEN, REFRESH_TOKEN, EXPIRES_AT]

theorem tokenWrite_refresh (st : Store) (now : Int) (a r : Option String)
    (ei : Option Int) :
    tokenWrite st now a r ei REFRESH_TOKEN =
      match r with
      | some x => some (.str x)
      | none => st REFRESH_TOKEN := by
  cases a <;> cases r <;>
    simp [tokenWrite, setKVs, setKey, ACCESS_TOKEN, REFRESH_TOKEN, EXPIRES_AT]

theorem tokenWrite_expires (st : Store) (now : Int) (a r : Option String)
    (ei : Option Int) :
    tokenWrite st now a r ei EXPIRES_AT = some (.num (expiresAtCalc now ei)) := by
  cases a <;> cases r <;>
    simp [tokenWrite, setKVs, setKey, EXPIRES_AT]

/-! ### Background relay and concurrent authenticate flows (claim C4)

The onMessage listener of src/unnamed/part_001 starts SpotifyAuth.authenticate
for every authenticate message it receives; it keeps no flag for an in-flight
call. Each authenticate call generates its code verifier inside its own
closure (spotify_auth.js keeps codeVerifier in the closure of the single
async flow), so a flow is modelled as the pair of that verifier and its
stage, and the web auth callback for a flow exchanges with the verifier of
that flow alone. -/

/-- Stage of one authenticate flow. -/
inductive FlowStage where
  | launched
  | exchanged (code : String)
deriving DecidableEq

/-- One POST of the code exchange: the attempt it belongs to, the verifier
sent and the authorization code sent. -/
structure ExchangeReq where
  attempt : Nat
  verifier : String
  code : String
deriving DecidableEq

/-- Relay state: the flows started so far, each carrying the verifier held in
its own closure. The listener keeps no other state. -/
structure BgState where
  flows : List (String × FlowStage)
deriving DecidableEq

/-- Events the relay reacts to: an authenticate message from the popup, or
the launchWebAuthFlow callback of flow i delivering an authorization code. -/
inductive BgEvent where
  | authMessage (verifier : String)
  | callback (i : Nat) (code : String)
deriving DecidableEq

/-- One step of the relay: an authenticate message always starts a new flow,
with no in-flight guard rejecting it; a web auth callback for flow i performs
the code exchange POST with the verifier of flow i. -/
def bgStep (s : BgState) (e : BgEvent) : BgState × List ExchangeReq :=
  match e with
  | .authMessage v => (⟨s.flows ++ [(v, .launched)]⟩, [])
  | .callback i c =>
    match s.flows[i]? with
    | some (v, .launched) => (⟨s.flows.set i (v, .exchanged c)⟩, [⟨i, v, c⟩])
    | _ => (s, [])

/-- Run the relay from a state over an event list, collecting the code
exchange POSTs in order. -/
def bgRunFrom (s : BgState) : List BgEvent → BgState × List ExchangeReq
  | [] => (s, [])
  | e :: es =>
      ((bgRunFrom (bgStep s e).1 es).1,
        (bgStep s e).2 ++ (bgRunFrom (bgStep s e).1 es).2)

/-- Run the relay from the initial state, which holds no flows. -/
def bgRun (es : List BgEvent) : BgState × List ExchangeReq := bgRunFrom ⟨[]⟩ es

/-- Verifiers carried by the authenticate messages of an event list, in
order: the verifier generated by attempt 0, attempt 1, and so on. -/
def authVerifiers (es : List BgEvent) : List String :=
  es.filterMap (fun e =>
    match e with
    | .authMessage v => some v
    | _ => none)

theorem list_set_getElem_eq {α : Type} (l : List α) (i : Nat) (a : α)
    (h : l[i]? = some a) : l.set i a = l := by
  induction l generalizing i with
  | nil => simp at h
  | cons x t ih =>
    cases i with
    | zero =>
        simp only [List.getElem?_cons_zero, Option.some.injEq] at h
        simp [List.set, h]
    | succ n =>
        simp only [List.getElem?_cons_succ] at h
        simp [List.set, ih n h]

theorem bgStep_flows_fst (s : BgState) (e : BgEvent) :
    ((bgStep s e).1.flows.map Prod.fst) =
      s.flows.map Prod.fst ++
        (match e with
         | .authMessage v => [v]
         | _ => []) := by
  cases e with
  | authMessage v => simp [bgStep]
  | callback i c =>
    cases hf : s.flows[i]? with
    | none => simp [bgStep, hf]
    | some p =>
      cases p with
      | mk v stage =>
        cases stage with
        | launched =>
            simp only [bgStep, hf, List.append_nil]
            rw [List.map_set]
            apply list_set_getElem_eq
            rw [List.getElem?_map, hf]
            rfl
        | exchanged c0 => simp [bgStep, hf]

/-- Every code exchange POST a run emits carries the verifier generated by
the very attempt whose callback delivered the code. -/
theorem bgRunFrom_sound (es : List BgEvent) : ∀ (s : BgState) (req : ExchangeReq),
    req ∈ (bgRunFrom s es).2 →
    (s.flows.map Prod.fst ++ authVerifiers es)[req.attempt]? = some req.verifier ∧
    BgEvent.callback req.attempt req.code ∈ es := by
  induction es with
  | nil =>
      intro s req h
      simp [bgRunFrom] at h
  | cons e es ih =>
      intro s req h
      rw [bgRunFrom] at h
      rcases List.mem_append.mp h with h1 | h2
      · cases e with
        | authMessage v => simp [bgStep] at h1
        | callback i c =>
          cases hf : s.flows[i]? with
          | none => simp [bgStep, hf] at h1
          | some p =>
            cases p with
            | mk v stage =>
              cases stage with
              | launched =>
                  simp only [bgStep, hf, List.mem_singleton] at h1
                  subst h1
                  have hi : (s.flows.map Prod.fst)[i]? = some v := by
                    rw [List.getElem?_map, hf]
                    rfl
                  have hlt : i < (s.flows.map Prod.fst).length := by
                    have := List.getElem?_eq_some_iff.mp hi
                    exact this.1
                  constructor
                  · have happ :
                        ((s.flows.map Prod.fst) ++ authVerifiers (BgEvent.callback i c :: es))[i]? =
                          (s.flows.map Prod.fst)[i]? :=
                      List.getElem?_append_left hlt
                    rw [happ, hi]
                  · exact List.mem_cons_self _ _
              | exchanged c0 => simp [bgStep, hf] at h1
      · have := ih (bgStep s e).1 req h2
        rcases this with ⟨hv, hm⟩
        rw [bgStep_flows_fst] at hv
        constructor
        · cases e with
          | authMessage v =>
              rw [List.append_assoc] at hv
              simpa [authVerifiers] using hv
          | callback i c =>
              simpa [authVerifiers] using hv
        · exact List.mem_cons_of_mem _ hm

/-! ### Popup playback model (claims C6, C8)

The popup keeps a single pendingRecommendations variable, so at most one
pending playback request exists at any time by construction; queuing a newer
request assigns the variable and so supersedes the older one. -/

/-- One recommendation entry as the popup consumes it; only spotify_id
matters for playback. -/
structure Rec where
  spotify_id : Option String
deriving DecidableEq

/-- Popup player state: the fields of popup.js that playRecommendations and
the sandbox message listener read and write. -/
structure PopupState where
  deviceId : Option String
  isPlayerReady : Bool
  accessToken : Option String
  pendingRecommendations : Option (List Rec)
deriving DecidableEq

/-- One PUT to the play endpoint: the device the call is scoped to and the
track URI list in its body. -/
structure PlayCall where
  device : String
  uris : List String
deriving DecidableEq

/-- The URI conversion of playRecommendations: keep entries with a truthy
spotify_id and prepend the track URI scheme. -/
def trackUris (recs : List Rec) : List String :=
  (recs.filter (fun r => jsTruthyStr r.spotify_id)).map
    (fun r => "spotify:track:" ++ r.spotify_id.getD "")

/-- The tail of playRecommendations once the player is ready: no call when no
entry has an id, otherwise one play call scoped to the known device. -/
def playNow (st : PopupState) (d : String) (recs : List Rec) :
    PopupState × List PlayCall :=
  if trackUris recs = [] then (st, [])
  else (st, [⟨d, trackUris recs⟩])

/-- playRecommendations of popup.js: play at once when the player is ready
with a truthy device and token; otherwise consult ensurePlayerReady,
summarised by its outcome: some (d, t) when it brought the player to ready
with device d and token t, none when the player stayed unready, in which case
the request is queued into the single pending slot, superseding any older
pending request. Under the ready guard deviceId holds a nonempty string, so
the getD default is never taken. -/
def playRecommendations (st : PopupState) (recs : List Rec)
    (ensure : Option (String × String)) : PopupState × List PlayCall :=
  if st.isPlayerReady && jsTruthyStr st.deviceId && jsTruthyStr st.accessToken then
    playNow st (st.deviceId.getD "") recs
  else
    match ensure with
    | some (d, t) =>
        playNow { st with deviceId := some d, accessToken := some t,
                          isPlayerReady := true } d recs
    | none => ({ st with pendingRecommendations := some recs }, [])

/-- The PLAYER_READY and DEVICE_ID case of the popup message listener: record
the device, mark the player ready, and when a pending request exists clear
the slot first and play the saved list. -/
def onPlayerReady (st : PopupState) (d : String)
    (ensure : Option (String × String)) : PopupState × List PlayCall :=
  let st1 := { st with deviceId := some d, isPlayerReady := true }
  match st1.pendingRecommendations with
  | some recs =>
      playRecommendations { st1 with pendingRecommendations := none } recs ensure
  | none => (st1, [])

/-- One entry of the device listing response. -/
structure Device where
  id : String
  name : String
  is_active : Bool
deriving DecidableEq

/-- JavaScript String.prototype.includes: substring containment. -/
def containsSub : List Char → List Char → Bool
  | [], pat => pat.isEmpty
  | s@(_ :: t), pat => pat.isPrefixOf s || containsSub t pat

/-- includes on strings. -/
def strIncludes (s pat : String) : Bool := containsSub s.data pat.data

/-- The device selection of getSpotifyDevices in popup.js over the fetched
device list: the device named after this extension (exact name or substring),
else an active device other than the web player placeholder, else the second
listed device when at least two are listed, else the first listed device,
else null. -/
def selectDevice (devices : List Device) : Option String :=
  match devices.find? (fun d =>
      d.name == "Superior Reading Extension" || strIncludes d.name "Superior Reading") with
  | some our => some our.id
  | none =>
    match devices.find? (fun d => d.is_active && !(d.name == "Web Player (Chrome)")) with
    | some act => some act.id
    | none =>
      match devices with
      | _ :: d1 :: _ => some d1.id
      | [d0] => some d0.id
      | [] => none

/-- Device selection as claim C8 words it: a device matching the declared
player name, else an active device that is not the web player placeholder,
else the FIRST listed device, else null. Written from the claim, to be
compared against selectDevice. -/
def selectDeviceClaim (devices : List Device) : Option String :=
  match devices.find? (fun d => d.name == "Superior Reading Extension") with
  | some our => some our.id
  | none =>
    match devices.find? (fun d => d.is_active && !(d.name == "Web Player (Chrome)")) with
    | some act => some act.id
    | none => devices.head?.map Device.id

/-- Device selection as the code actually behaves, written as the amended
claim reads: the extension device by exact name or substring, else an active
non web player device, else the device at index 1 when it exists, else the
head of the list. -/
def selectDeviceAmended (devices : List Device) : Option String :=
  match devices.find? (fun d =>
      d.name == "Superior Reading Extension" || strIncludes d.name "Superior Reading") with
  | some our => some our.id
  | none =>
    match devices.find? (fun d => d.is_active && !(d.name == "Web Player (Chrome)")) with
    | some act => some act.id
    | none =>
      match devices[1]? with
      | some d1 => some d1.id
      | none => devices.head?.map Device.id

/-! ### Claim theorems -/

/-- C1: claim that every generated verifier has length in [43, 128] over the
unreserved set. The part_000 generateCodeVerifier satisfies this: 32 bytes
give exactly 43 unreserved characters. The Frontend generateCodeVerifier
contradicts it and its own comment: 96 bytes give a 192 character verifier,
above the 128 character bound. -/
theorem c1_generate_verifier (bytes : List Nat) (h : bytes.length = 96) :
    (generateCodeVerifierHex bytes).length = 192 ∧
    ¬((generateCodeVerifierHex bytes).length ≤ 128) ∧
    ∀ bs : List Nat, bs.length = 32 →
      (generateCodeVerifierB64 bs).length = 43 ∧
      43 ≤ (generateCodeVerifierB64 bs).length ∧
      (generateCodeVerifierB64 bs).length ≤ 128 ∧
      ∀ c ∈ (generateCodeVerifierB64 bs).data, isUnreserved c = true := by
  have h1 := generateCodeVerifierHex_length bytes
  rw [h] at h1
  refine ⟨by omega, by omega, ?_⟩
  intro bs hbs
  obtain ⟨hlen, hchar⟩ := generateCodeVerifierB64_spec bs
  rw [hbs] at hlen
  have h43 : (generateCodeVerifierB64 bs).length = 43 := by omega
  exact ⟨h43, by omega, by omega, hchar⟩

/-- C1 witness: the two verifier generators evaluated on concrete byte
lists. -/
theorem c1_generate_verifier_witness :
    (generateCodeVerifierHex (List.replicate 96 0)).length = 192 ∧
    (generateCodeVerifierB64 (List.replicate 32 0)).length = 43 :=
  ⟨(c1_generate_verifier (List.replicate 96 0) (by simp)).1,
   ((c1_generate_verifier (List.replicate 96 0) (by simp)).2.2
      (List.replicate 32 0) (by simp)).1⟩

/-- C2 (amended): every successful refresh leaves the previously stored
refresh token in place whether or not the response carried one: the code
re-stores the token it read before the POST and never consults the
refresh_token field of the response. -/
theorem c2_refresh_preserves_refresh_token (st : Store) (now : Int)
    (resp : TokenResponse) (o : WriteOutcome) (r : String)
    (hr : getStr st REFRESH_TOKEN = some r)
    (st1 : Store) (tok : Option String)
    (h : (refreshAccessToken st now true resp o).1 = .ok (st1, tok)) :
    getStr st1 REFRESH_TOKEN = some r := by
  simp only [refreshAccessToken, hr] at h
  by_cases hre : r = ""
  · rw [if_pos hre] at h
    simp at h
  · rw [if_neg hre] at h
    cases o with
    | errored m => simp [storeTokens] at h
    | ok =>
        simp [storeTokens] at h
        obtain ⟨h1, -⟩ := h
        subst h1
        simp [getStr, tokenWrite_refresh]
    | silent =>
        simp [storeTokens] at h
        obtain ⟨h1, -⟩ := h
        subst h1
        exact hr

/-- C2 witness: a successful refresh over a concrete store keeps the stored
refresh token R1 when the response has no refresh_token field. -/
theorem c2_refresh_witness :
    getStr (tokenWrite (fun k => if k = REFRESH_TOKEN then some (.str "R1") else none)
      0 (some "A2") (some "R1") (some 3600)) REFRESH_TOKEN = some "R1" :=
  c2_refresh_preserves_refresh_token
    (fun k => if k = REFRESH_TOKEN then some (.str "R1") else none)
    0 ⟨some "A2", none, some 3600⟩ .ok "R1" (by decide)
    (tokenWrite (fun k => if k = REFRESH_TOKEN then some (.str "R1") else none)
      0 (some "A2") (some "R1") (some 3600)) (some "A2") rfl

/-- C2 counterexample: a refresh response that carries the new refresh token
R2 does not overwrite the stored R1, contradicting the overwrite half of the
claim. -/
theorem c2_counterexample :
    ((refreshAccessToken
        (fun k => if k = REFRESH_TOKEN then some (.str "R1") else none)
        0 true ⟨some "A2", some "R2", some 3600⟩ .ok).1.toOption.map
      (fun p => getStr p.1 REFRESH_TOKEN)) = some (some "R1") ∧
    (some "R1" : Option String) ≠ some "R2" := by
  constructor
  · decide
  · decide

/-- C3 (amended, for the src/unnamed/part_000 variant): starting from a store
with no usable tokens, the authenticate token phase succeeds iff the exchange
response carried both tokens; a response missing either fails with the
missing required fields error and leaves is_authenticated false. The
Frontend variant lacks the completeness check, see the counterexample. -/
theorem c3_authenticate_complete_iff (st : Store) (now : Int)
    (resp : TokenResponse) (hauth : isAuthenticated st = false) :
    ((authExchangePhaseP0 st now resp .ok).isOk = true ↔
      (jsTruthyStr resp.access_token = true ∧ jsTruthyStr resp.refresh_token = true)) ∧
    isAuthenticated (afterAuth st (authExchangePhaseP0 st now resp .ok)) =
      (jsTruthyStr resp.access_token && jsTruthyStr resp.refresh_token) ∧
    ((jsTruthyStr resp.access_token = false ∨ jsTruthyStr resp.refresh_token = false) →
      authExchangePhaseP0 st now resp .ok =
        .error "Token response missing required fields") := by
  cases hA : jsTruthyStr resp.access_token with
  | false =>
      refine ⟨?_, ?_, ?_⟩ <;>
        simp [authExchangePhaseP0, hA, afterAuth, hauth, Except.isOk, Except.toBool]
  | true =>
    cases hR : jsTruthyStr resp.refresh_token with
    | false =>
        refine ⟨?_, ?_, ?_⟩ <;>
          simp [authExchangePhaseP0, hA, hR, afterAuth, hauth, Except.isOk, Except.toBool]
    | true =>
        obtain ⟨a, ha, hane⟩ : ∃ a, resp.access_token = some a ∧ a ≠ "" := by
          cases hx : resp.access_token with
          | none => rw [hx] at hA; simp [jsTruthyStr] at hA
          | some a =>
              refine ⟨a, rfl, ?_⟩
              rw [hx] at hA
              simpa [jsTruthyStr] using hA
        obtain ⟨r, hrr, hrne⟩ : ∃ r, resp.refresh_token = some r ∧ r ≠ "" := by
          cases hx : resp.refresh_token with
          | none => rw [hx] at hR; simp [jsTruthyStr] at hR
          | some r =>
              refine ⟨r, rfl, ?_⟩
              rw [hx] at hR
              simpa [jsTruthyStr] using hR
        have hst : authExchangePhaseP0 st now resp .ok =
            .ok (tokenWrite st now resp.access_token resp.refresh_token resp.expires_in) := by
          simp [authExchangePhaseP0, hA, hR, storeTokensP0, verifyStored,
            isAuthenticated, tokenWrite_access, tokenWrite_refresh, ha, hrr,
            jsTruthy, jsTruthyStr, hane, hrne]
        refine ⟨?_, ?_, ?_⟩
        · simp [hst, Except.isOk, Except.toBool, hA, hR]
        · simp [hst, afterAuth, isAuthenticated, tokenWrite_access,
            tokenWrite_refresh, ha, hrr, jsTruthy, hane, hrne, hA, hR]
        · intro hcon
          rcases hcon with hc | hc
          · exact absurd hc (by decide)
          · exact absurd hc (by decide)

/-- C3 witness: a complete concrete response makes the part_000 authenticate
phase succeed from the empty store, an incomplete one makes it fail. -/
theorem c3_authenticate_witness :
    (authExchangePhaseP0 (fun _ => none) 0 ⟨some "A", some "R", some 3600⟩ .ok).isOk = true ∧
    authExchangePhaseP0 (fun _ => none) 0 ⟨some "A", none, some 3600⟩ .ok =
      .error "Token response missing required fields" :=
  ⟨(c3_authenticate_complete_iff (fun _ => none) 0
      ⟨some "A", some "R", some 3600⟩ rfl).1.mpr ⟨by decide, by decide⟩,
   (c3_authenticate_complete_iff (fun _ => none) 0
      ⟨some "A", none, some 3600⟩ rfl).2.2 (Or.inr (by decide))⟩

/-- C3 counterexample: the Frontend authenticate token phase resolves
successfully on a response with no refresh token, after which
is_authenticated is false, so success is not equivalent to the response
carrying both tokens and no incomplete response error surfaces. -/
theorem c3_counterexample :
    (authExchangePhase (fun _ => none) 0 ⟨some "AAA", none, some 3600⟩ .ok).isOk = true ∧
    (authExchangePhase (fun _ => none) 0 ⟨some "AAA", none, some 3600⟩ .ok).toOption.map
      isAuthenticated = some false := by
  constructor
  · rfl
  · rfl

/-- C4 (amended): the relay does not reject or queue a second authenticate
message while one is in flight, it simply starts another flow; nevertheless
no code exchange ever mixes attempts: every exchange POST of any run carries
the verifier generated by the very attempt whose callback delivered the
authorization code, because each verifier lives only in the closure of its
own flow. -/
theorem c4_no_mixing (es : List BgEvent) (req : ExchangeReq)
    (h : req ∈ (bgRun es).2) :
    (authVerifiers es)[req.attempt]? = some req.verifier ∧
    BgEvent.callback req.attempt req.code ∈ es := by
  have hs := bgRunFrom_sound es ⟨[]⟩ req h
  simpa using hs

/-- C4 witness: in a run with two overlapping attempts the exchange of
attempt 1 carries the verifier of attempt 1. -/
theorem c4_no_mixing_witness :
    (authVerifiers [BgEvent.authMessage "v1", BgEvent.authMessage "v2",
        BgEvent.callback 1 "c2", BgEvent.callback 0 "c1"])[1]? = some "v2" ∧
    BgEvent.callback 1 "c2" ∈ [BgEvent.authMessage "v1", BgEvent.authMessage "v2",
        BgEvent.callback 1 "c2", BgEvent.callback 0 "c1"] :=
  c4_no_mixing _ ⟨1, "v2", "c2"⟩ (by decide)

/-- C4 counterexample to the claim as stated: after two authenticate
messages both flows are simultaneously in flight, so the second was neither
rejected nor ignored, and in the run where the callbacks arrive in reverse
order the exchange of attempt 1 completes before the exchange of attempt 0,
so the second call is not queued behind the first either. -/
theorem c4_counterexample :
    (bgRunFrom ⟨[]⟩ [BgEvent.authMessage "v1", BgEvent.authMessage "v2"]).1.flows =
      [("v1", FlowStage.launched), ("v2", FlowStage.launched)] ∧
    (bgRun [BgEvent.authMessage "v1", BgEvent.authMessage "v2",
        BgEvent.callback 1 "c2", BgEvent.callback 0 "c1"]).2.map ExchangeReq.attempt =
      [1, 0] := by
  constructor
  · decide
  · decide

/-- C5: with a stored credential whose expiry lies more than the five minute
margin after now, getAccessToken returns the cached token with zero token
endpoint calls; with the expiry at most five minutes away it performs exactly
one refresh exchange and returns the refreshed token. -/
theorem c5_get_access_token_paths :
    (∀ (st : Store) (now e : Int) (a : String) (httpOk : Bool)
        (resp : TokenResponse) (o : WriteOutcome),
      0 ≤ now →
      st ACCESS_TOKEN = some (.str a) → a ≠ "" →
      st EXPIRES_AT = some (.num (.int e)) →
      5 * 60 * 1000 < e - now →
      getAccessToken st now httpOk resp o = (.ok (some a), st, 0)) ∧
    (∀ (st : Store) (now e : Int) (r a2 : String) (resp : TokenResponse),
      st EXPIRES_AT = some (.num (.int e)) →
      e - now ≤ 5 * 60 * 1000 →
      getStr st REFRESH_TOKEN = some r → r ≠ "" →
      resp.access_token = some a2 →
      ∃ st1, getAccessToken st now true resp .ok = (.ok (some a2), st1, 1)) := by
  constructor
  · intro st now e a httpOk resp o hnow hA hane hE hgt
    have he0 : ¬(e = 0) := by omega
    have hlt : now < e - 5 * 60 * 1000 := by omega
    simp [getAccessToken, hA, hE, jsTruthy, jsLtExpiry, getStr, hane, he0, hlt]
    intro hcon
    exact absurd hcon (by omega)
  · intro st now e r a2 resp hE hle hr hrne hresp
    have hlt : ¬(now < e - 5 * 60 * 1000) := by omega
    refine ⟨tokenWrite st now resp.access_token (some r)
      (some (jsOrInt resp.expires_in 3600)), ?_⟩
    simp [getAccessToken, hE, jsLtExpiry, hlt, refreshAccessToken, hr, hrne,
      storeTokens, hresp]
    intro h1 h2
    omega

/-- C5 witness: the two paths evaluated on a concrete store, at a time ten
minutes before expiry and at a time one minute before expiry. -/
theorem c5_get_access_token_witness :
    getAccessToken
      (fun k => if k = ACCESS_TOKEN then some (.str "A1")
        else if k = REFRESH_TOKEN then some (.str "R1")
        else if k = EXPIRES_AT then some (.num (.int 600000)) else none)
      0 true ⟨some "A2", none, some 3600⟩ .ok =
      (.ok (some "A1"),
        (fun k => if k = ACCESS_TOKEN then some (.str "A1")
          else if k = REFRESH_TOKEN then some (.str "R1")
          else if k = EXPIRES_AT then some (.num (.int 600000)) else none), 0) ∧
    ∃ st1, getAccessToken
      (fun k => if k = ACCESS_TOKEN then some (.str "A1")
        else if k = REFRESH_TOKEN then some (.str "R1")
        else if k = EXPIRES_AT then some (.num (.int 600000)) else none)
      540000 true ⟨some "A2", none, some 3600⟩ .ok = (.ok (some "A2"), st1, 1) :=
  ⟨c5_get_access_token_paths.1 _ 0 600000 "A1" true ⟨some "A2", none, some 3600⟩ .ok
      (by decide) (by decide) (by decide) (by decide) (by decide),
   c5_get_access_token_paths.2 _ 540000 600000 "R1" "A2" ⟨some "A2", none, some 3600⟩
      (by decide) (by decide) (by decide) (by decide) (by decide)⟩

/-- C6: the pending slot is one Option variable, so at most one request is
pending and queuing a newer request supersedes the older one; when a
player ready event with device D1 arrives while a request is queued and an
access token is at hand, exactly one play call is issued against D1 with the
URI list of the queued tracks, and the pending slot is empty afterwards. -/
theorem c6_pending_playback :
    (∀ (st : PopupState) (recs : List Rec) (tok d : String)
        (ensure : Option (String × String)),
      st.pendingRecommendations = some recs →
      st.accessToken = some tok → tok ≠ "" → d ≠ "" →
      trackUris recs ≠ [] →
      (onPlayerReady st d ensure).2 = [⟨d, trackUris recs⟩] ∧
      (onPlayerReady st d ensure).1.pendingRecommendations = none ∧
      (onPlayerReady st d ensure).1.deviceId = some d ∧
      (onPlayerReady st d ensure).1.isPlayerReady = true) ∧
    (∀ (st : PopupState) (recs : List Rec),
      (st.isPlayerReady && jsTruthyStr st.deviceId && jsTruthyStr st.accessToken) = false →
      (playRecommendations st recs none).1.pendingRecommendations = some recs ∧
      (playRecommendations st recs none).2 = []) := by
  constructor
  · intro st recs tok d ensure hp htok htokne hdne hur
    simp [onPlayerReady, hp, playRecommendations, htok, jsTruthyStr, htokne,
      hdne, playNow, hur]
  · intro st recs hguard
    simp [playRecommendations, hguard]

/-- C6 witness: a queued single track request played on readiness of device
D1, leaving the slot empty; and a play request under an unready session
queued into the slot. -/
theorem c6_pending_playback_witness :
    (onPlayerReady ⟨none, false, some "tok", some [⟨some "t1"⟩]⟩ "D1" none).2 =
      [⟨"D1", ["spotify:track:" ++ "t1"]⟩] ∧
    (onPlayerReady ⟨none, false, some "tok", some [⟨some "t1"⟩]⟩ "D1" none).1.pendingRecommendations =
      none ∧
    (playRecommendations ⟨none, false, none, none⟩ [⟨some "t2"⟩] none).1.pendingRecommendations =
      some [⟨some "t2"⟩] :=
  ⟨(c6_pending_playback.1 ⟨none, false, some "tok", some [⟨some "t1"⟩]⟩ [⟨some "t1"⟩]
      "tok" "D1" none rfl rfl (by decide) (by decide) (by decide)).1,
   (c6_pending_playback.1 ⟨none, false, some "tok", some [⟨some "t1"⟩]⟩ [⟨some "t1"⟩]
      "tok" "D1" none rfl rfl (by decide) (by decide) (by decide)).2.1,
   (c6_pending_playback.2 ⟨none, false, none, none⟩ [⟨some "t2"⟩] (by decide)).1⟩

/-- C7 (amended): the part_000 storeTokens confirms the write by reading both
tokens back, so a silently failed write surfaces as the rejection with the
not stored correctly message, and a confirmed write resolves; the Frontend
storeTokens resolves as soon as the set callback reports no error without
confirming the write, see the counterexample. -/
theorem c7_store_verification :
    (∀ (st : Store) (now : Int) (a r : String) (ei : Option Int),
      isAuthenticated st = false →
      storeTokensP0 st now (some a) (some r) ei .silent =
        .error "Tokens were not stored correctly") ∧
    (∀ (st : Store) (now : Int) (a r : String) (ei : Option Int),
      a ≠ "" → r ≠ "" →
      storeTokensP0 st now (some a) (some r) ei .ok =
        .ok (tokenWrite st now (some a) (some r) ei) ∧
      isAuthenticated (tokenWrite st now (some a) (some r) ei) = true) := by
  constructor
  · intro st now a r ei hauth
    have hcond : (jsTruthy (st ACCESS_TOKEN) && jsTruthy (st REFRESH_TOKEN)) = false :=
      hauth
    simp [storeTokensP0, verifyStored, hcond]
  · intro st now a r ei ha hr
    constructor
    · simp [storeTokensP0, verifyStored, tokenWrite_access, tokenWrite_refresh,
        jsTruthy, ha, hr]
    · simp [isAuthenticated, tokenWrite_access, tokenWrite_refresh, jsTruthy, ha, hr]

/-- C7 witness: the part_000 storeTokens rejecting a silently lost write over
the empty store, and resolving a confirmed one. -/
theorem c7_store_verification_witness :
    storeTokensP0 (fun _ => none) 0 (some "A1") (some "R1") (some 3600) .silent =
      .error "Tokens were not stored correctly" ∧
    (storeTokensP0 (fun _ => none) 0 (some "A1") (some "R1") (some 3600) .ok).isOk = true :=
  ⟨c7_store_verification.1 (fun _ => none) 0 "A1" "R1" (some 3600) rfl,
   by rw [(c7_store_verification.2 (fun _ => none) 0 "A1" "R1" (some 3600)
      (by decide) (by decide)).1]; rfl⟩

/-- C7 counterexample: the Frontend storeTokens resolves successfully on a
silently failed write after which the tokens are absent from storage, so a
silently failed write does not surface as a rejection. -/
theorem c7_counterexample :
    (storeTokens (fun _ => none) 0 (some "A1") (some "R1") (some 3600) .silent).isOk = true ∧
    (storeTokens (fun _ => none) 0 (some "A1") (some "R1") (some 3600) .silent).toOption.map
      isAuthenticated = some false := by
  constructor
  · rfl
  · rfl

/-- C8 (amended): the device selection equals the four tier order: the
extension device by exact name or name containing Superior Reading, else an
active device other than the web player placeholder, else the SECOND listed
device when at least two are listed, else the first listed device; and it
returns null exactly when the list is empty. -/
theorem c8_device_selection (devices : List Device) :
    selectDevice devices = selectDeviceAmended devices ∧
    (selectDevice devices = none ↔ devices = []) := by
  constructor
  · unfold selectDevice selectDeviceAmended
    cases h1 : devices.find? (fun d =>
        d.name == "Superior Reading Extension" || strIncludes d.name "Superior Reading") with
    | some d => rfl
    | none =>
      cases h2 : devices.find? (fun d => d.is_active && !(d.name == "Web Player (Chrome)")) with
      | some d => rfl
      | none =>
        rcases devices with _ | ⟨d0, _ | ⟨d1, t⟩⟩ <;> simp
  · cases devices with
    | nil => simp [selectDevice]
    | cons d0 t =>
      have hne : selectDevice (d0 :: t) ≠ none := by
        unfold selectDevice
        cases h1 : (d0 :: t).find? (fun d =>
            d.name == "Superior Reading Extension" || strIncludes d.name "Superior Reading") with
        | some d => simp
        | none =>
          cases h2 : (d0 :: t).find? (fun d =>
              d.is_active && !(d.name == "Web Player (Chrome)")) with
          | some d => simp
          | none => cases t <;> simp
      simp [hne]

/-- C8 counterexample: with two inactive devices named neither after the
extension nor actively usable, the code returns the second device while the
claim as stated requires the first. -/
theorem c8_counterexample :
    selectDevice [⟨"id0", "Phone", false⟩, ⟨"id1", "Laptop", false⟩] = some "id1" ∧
    selectDeviceClaim [⟨"id0", "Phone", false⟩, ⟨"id1", "Laptop", false⟩] = some "id0" ∧
    selectDevice [⟨"id0", "Phone", false⟩, ⟨"id1", "Laptop", false⟩] ≠
      selectDeviceClaim [⟨"id0", "Phone", false⟩, ⟨"id1", "Laptop", false⟩] := by
  refine ⟨?_, ?_, ?_⟩ <;> decide

/-- C9: the 3600 second default lifetime is applied only on the refresh
path; an exchange response without expires_in stores a NaN expiry, the
cached token comparison against NaN is false for every current time, and
every subsequent getAccessToken call takes the refresh path rather than the
cached fast path. -/
theorem c9_missing_expires_in :
    (∀ (st : Store) (now : Int) (a r : String),
      (authExchangePhase st now ⟨some a, some r, none⟩ .ok).toOption.map
        (fun s => s EXPIRES_AT) = some (some (.num .nan))) ∧
    (∀ (st : Store) (now : Int) (r : String) (resp : TokenResponse),
      getStr st REFRESH_TOKEN = some r → r ≠ "" → resp.expires_in = none →
      ((refreshAccessToken st now true resp .ok).1.toOption.map
        (fun p => p.1 EXPIRES_AT)) = some (some (.num (.int (now + 3600 * 1000))))) ∧
    (∀ now : Int, jsLtExpiry now (some (.num .nan)) = false) ∧
    (∀ (st : Store) (now : Int) (httpOk : Bool) (resp : TokenResponse)
        (o : WriteOutcome),
      st EXPIRES_AT = some (.num .nan) →
      getAccessToken st now httpOk resp o =
        match refreshAccessToken st now httpOk resp o with
        | (.ok (st1, tok), n) => (.ok tok, st1, n)
        | (.error _, n) =>
            (.error "Token expired and refresh failed. Please re-authenticate.", st, n)) := by
  refine ⟨?_, ?_, ?_, ?_⟩
  · intro st now a r
    simp [authExchangePhase, storeTokens, tokenWrite_expires, expiresAtCalc]
    exact ⟨_, rfl, by rw [tokenWrite_expires]; rfl⟩
  · intro st now r resp hr hrne hei
    simp [refreshAccessToken, hr, hrne, storeTokens, jsOrInt, hei,
      tokenWrite_expires, expiresAtCalc]
    refine ⟨_, ⟨_, rfl⟩, ?_⟩
    rw [tokenWrite_expires]
    norm_num [expiresAtCalc]
  · intro now
    rfl
  · intro st now httpOk resp o hE
    simp [getAccessToken, hE, jsTruthy]

/-- C9 witness: the exchange path with a concrete response lacking
expires_in stores NaN, and getAccessToken over a store holding a NaN expiry
takes the refresh path. -/
theorem c9_missing_expires_in_witness :
    (authExchangePhase (fun _ => none) 5 ⟨some "A", some "R", none⟩ .ok).toOption.map
      (fun s => s EXPIRES_AT) = some (some (.num .nan)) ∧
    jsLtExpiry 12345 (some (.num .nan)) = false :=
  ⟨c9_missing_expires_in.1 (fun _ => none) 5 "A" "R",
   c9_missing_expires_in.2.2.1 12345⟩

/-- C10: clearTokens removes exactly the four token keys of STORAGE_KEYS;
every other key is unchanged, in particular the three cached player session
keys and pendingRecommendations survive a logout. -/
theorem c10_logout_frame (st : Store) :
    clearTokens st ACCESS_TOKEN = none ∧
    clearTokens st REFRESH_TOKEN = none ∧
    clearTokens st EXPIRES_AT = none ∧
    clearTokens st CODE_VERIFIER = none ∧
    (∀ k, k ≠ ACCESS_TOKEN → k ≠ REFRESH_TOKEN → k ≠ EXPIRES_AT →
      k ≠ CODE_VERIFIER → clearTokens st k = st k) ∧
    clearTokens st "spotify_player_device_id" = st "spotify_player_device_id" ∧
    clearTokens st "spotify_player_ready" = st "spotify_player_ready" ∧
    clearTokens st "spotify_player_ready_timestamp" = st "spotify_player_ready_timestamp" ∧
    clearTokens st "pendingRecommendations" = st "pendingRecommendations" := by
  refine ⟨?_, ?_, ?_, ?_, ?_, ?_, ?_, ?_, ?_⟩
  · show (if _ then _ else _) = _
    rw [if_pos (by decide)]
  · show (if _ then _ else _) = _
    rw [if_pos (by decide)]
  · show (if _ then _ else _) = _
    rw [if_pos (by decide)]
  · show (if _ then _ else _) = _
    rw [if_pos (by decide)]
  · intro k h1 h2 h3 h4
    show (if _ then _ else _) = _
    rw [if_neg (by tauto)]
  · show (if _ then _ else _) = _
    rw [if_neg (by decide)]
  · show (if _ then _ else _) = _
    rw [if_neg (by decide)]
  · show (if _ then _ else _) = _
    rw [if_neg (by decide)]
  · show (if _ then _ else _) = _
    rw [if_neg (by decide)]

/-- C10 witness: logout over a concrete store keeps the player ready flag
and drops the access token. -/
theorem c10_logout_frame_witness :
    clearTokens (fun _ => some (.boolV true)) "spotify_player_ready" = some (.boolV true) ∧
    clearTokens (fun _ => some (.boolV true)) ACCESS_TOKEN = none :=
  ⟨(c10_logout_frame (fun _ => some (.boolV true))).2.2.2.2.2.2.1,
   (c10_logout_frame (fun _ => some (.boolV true))).1⟩

end SuperiorReading
